import Mathlib

/-!
# Time-Capsule API: capsule lifecycle engine

A shallow embedding of `src/controllers/capsuleController.js` and
`src/utils/scheduler.js`.

Modelling conventions, fixed once for the whole development:

* An instant is an `Int`: milliseconds since the epoch, the value of
  `Date.prototype.getTime()`.
* The column `unlock_at` holds the request value as it was bound, after the
  NUMERIC affinity of its type `DATETIME`. The handlers read it with
  `new Date(...)`; the SQL statements compare it as SQLite compares values: a
  number is less than every text, and two texts compare byte by byte. A row
  carries both views of the column (`unlock_at`, `unlock_at_column`).
* SQLite's `datetime(...)` and `CURRENT_TIMESTAMP` yield the text
  `YYYY-MM-DD HH:MM:SS` of the whole second (`sqlDatetime`).
* `setDate(getDate() ± 30)` moves an instant by thirty days of 24 hours (a
  server time zone without clock changes).
* One request reads the clock once: the `new Date()` calls of one handler and
  the `'now'` of its SQL see the same instant `now`.
* A request is handled without interleaving with other requests, so every
  handler is a function from the store before to a response and the store after.
* The table `capsules` is the list of its rows in rowid order, `seq` is the
  counter that `AUTOINCREMENT` keeps in `sqlite_sequence`.
* Numbers of JavaScript are doubles: `page`, `limit` and the offset of the
  listing are integers that a double holds (`toDouble`).
-/

namespace TimeCapsule

/-! ## Data model -/

/-- The value of the column `unlock_at` as SQLite holds and compares it. The
column is declared `DATETIME`, which has NUMERIC affinity: a bound number, and a
bound string that is a numeric literal, are stored as a number (storage class
INTEGER or REAL); any other string is stored as TEXT. -/
inductive StoredDate where
  | numeric
  | text (s : String)
  deriving DecidableEq, Repr

/-- A row of the table `capsules` (`src/config/database.js`). The column
`unlock_at` has two views: `unlock_at` is the instant the handlers read from it,
`new Date(capsule.unlock_at).getTime()`, and `unlock_at_column` is the value the
SQL statements compare. `created_at` and `updated_at` are written by
`CURRENT_TIMESTAMP` only and are held as the instant of that whole second; their
texts `YYYY-MM-DD HH:MM:SS` are in the order of these instants. -/
structure Capsule where
  id : Nat
  user_id : Nat
  message : String
  unlock_at : Int
  unlock_at_column : StoredDate
  unlock_code : String
  is_expired : Bool
  created_at : Int
  updated_at : Int
  deriving DecidableEq, Repr

/-- The table `capsules` together with its `AUTOINCREMENT` counter. -/
structure Db where
  capsules : List Capsule
  seq : Nat
  deriving DecidableEq, Repr

/-- A truthy request value of `unlock_at`, a JSON number or string, of which
`new Date` makes a valid date. `number n`: a number, `new Date` of it is the
instant `n`. `text s t`: a string that is no numeric literal, `new Date` of it is
the instant `t`. `numericText s t m`: a string that is a numeric literal, such as
the year `"2030"`; `new Date` of the string is the instant `t`, the column stores
the number, and `new Date` of that number is the instant `m`. -/
inductive DateValue where
  | number (n : Int)
  | text (s : String) (t : Int)
  | numericText (s : String) (t m : Int)
  deriving DecidableEq, Repr

/-- A request value that the handlers pass to `new Date(...)`, classified the
way the handlers look at it: a falsy value (`undefined`, `null`, the empty
string, the number zero), a truthy value whose `getTime()` is `NaN`, or a truthy
value that denotes an instant. -/
inductive DateArg where
  | absent
  | invalid
  | valid (v : DateValue)
  deriving DecidableEq, Repr

/-- One element of the array `capsules` in the body of the listing. -/
structure ListItem where
  id : Nat
  unlock_at : Int
  is_expired : Bool
  created_at : Int
  updated_at : Int
  message : Option String
  deriving DecidableEq, Repr

/-- What a handler sends: the status and the fields of the JSON body that vary.
`error` is a body that holds only the field `error`. `failure` stands for a
request whose handler passes an error of the store to `next`. -/
inductive Response where
  | error (status : Nat) (text : String)
  | notYetUnlocked (text : String) (unlock_at : Int)
  | created (id : Nat) (unlock_code : String) (unlock_at : Int)
  | capsule (id : Nat) (message : String) (unlock_at created_at updated_at : Int)
  | updated (id : Nat)
  | deleted (id : Nat)
  | listing (capsules : List ListItem) (total : Nat) (page limit totalPages : Int)
  | failure
  deriving DecidableEq, Repr

/-- The HTTP status of a response. For `failure` it is 500, the status Express
gives an error passed to `next`; the error handler of the repository is not
among the sources. -/
def Response.status : Response → Nat
  | .error s _ => s
  | .notYetUnlocked _ _ => 403
  | .created _ _ _ => 201
  | .capsule _ _ _ _ _ => 200
  | .updated _ => 200
  | .deleted _ => 200
  | .listing _ _ _ _ _ => 200
  | .failure => 500

/-- The message a response discloses, if it discloses one: only the body of a
successful read has the field. -/
def Response.disclosed : Response → Option String
  | .capsule _ m _ _ _ => some m
  | _ => none

/-! ## Dates in JavaScript and in SQLite -/

/-- Thirty days in milliseconds. -/
def thirtyDaysMs : Int := 30 * 24 * 60 * 60 * 1000

/-- The instant `t` rounded down to a whole second, the resolution of
`CURRENT_TIMESTAMP`. -/
def sqlSeconds (t : Int) : Int := t / 1000 * 1000

/-- The value of `new Date(v).getTime()` for a valid request value. -/
def DateValue.time : DateValue → Int
  | .number n => n
  | .text _ t => t
  | .numericText _ t _ => t

/-- The value the column holds once the request value is bound to it. -/
def DateValue.column : DateValue → StoredDate
  | .number _ => .numeric
  | .text s _ => .text s
  | .numericText _ _ _ => .numeric

/-- The instant the handlers read back from the column, `new Date` of the stored
value. -/
def DateValue.reread : DateValue → Int
  | .number n => n
  | .text _ t => t
  | .numericText _ _ m => m

/-- Year, month and day of the day `z`, counted from 1970-01-01, in the
proleptic Gregorian calendar. -/
def civilFromDays (z : Int) : Int × Int × Int :=
  let z := z + 719468
  let era := z / 146097
  let doe := z % 146097
  let yoe := (doe - doe / 1460 + doe / 36524 - doe / 146096) / 365
  let doy := doe - (365 * yoe + yoe / 4 - yoe / 100)
  let mp := (5 * doy + 2) / 153
  let d := doy - (153 * mp + 2) / 5 + 1
  let m := if mp < 10 then mp + 3 else mp - 9
  (if m ≤ 2 then yoe + era * 400 + 1 else yoe + era * 400, m, d)

/-- The last decimal digit of `n`. -/
def digit (n : Nat) : Char := Char.ofNat (48 + n % 10)

/-- The last two decimal digits of `n`. -/
def pad2 (n : Nat) : String := String.mk [digit (n / 10), digit n]

/-- The last three decimal digits of `n`. -/
def pad3 (n : Nat) : String := String.mk [digit (n / 100), digit (n / 10), digit n]

/-- The last four decimal digits of `n`. -/
def pad4 (n : Nat) : String :=
  String.mk [digit (n / 1000), digit (n / 100), digit (n / 10), digit n]

/-- The last six decimal digits of `n`. -/
def pad6 (n : Nat) : String :=
  String.mk [digit (n / 100000), digit (n / 10000), digit (n / 1000), digit (n / 100),
    digit (n / 10), digit n]

/-- The text `HH:MM:SS` of the second `s` of a day. -/
def clockText (s : Int) : String :=
  pad2 (s / 3600).toNat ++ ":" ++ pad2 (s % 3600 / 60).toNat ++ ":" ++ pad2 (s % 60).toNat

/-- SQLite's `datetime(sec, 'unixepoch')`: the text `YYYY-MM-DD HH:MM:SS` of the
second `sec`, and `NULL` outside the dates `-4713-11-24 12:00:00` to
`9999-12-31 23:59:59`. -/
def sqlDatetime (sec : Int) : Option String :=
  if -210866760000 ≤ sec ∧ sec ≤ 253402300799 then
    let (y, m, d) := civilFromDays (sec / 86400)
    some ((if y < 0 then "-" else "") ++ pad4 y.natAbs ++ "-" ++ pad2 m.toNat ++ "-" ++
      pad2 d.toNat ++ " " ++ clockText (sec % 86400))
  else none

/-- JavaScript's `toISOString()` of the instant `ms`, the form in which the tests
send `unlock_at`: `YYYY-MM-DDTHH:mm:ss.sssZ`, with a signed year of six digits
outside the years 0000 to 9999. -/
def isoText (ms : Int) : String :=
  let sec := ms / 1000
  let (y, m, d) := civilFromDays (sec / 86400)
  (if 0 ≤ y ∧ y ≤ 9999 then pad4 y.toNat else (if y < 0 then "-" else "+") ++ pad6 y.natAbs) ++
    "-" ++ pad2 m.toNat ++ "-" ++ pad2 d.toNat ++ "T" ++ clockText (sec % 86400) ++ "." ++
    pad3 (ms % 1000).toNat ++ "Z"

/-- SQLite's comparison of two texts (collation BINARY, `memcmp`): the first
differing character decides, and a proper prefix is less. -/
def bytesLt : List Char → List Char → Bool
  | _, [] => false
  | [], _ :: _ => true
  | a :: as, b :: bs => decide (a.toNat < b.toNat) || (a.toNat == b.toNat && bytesLt as bs)

/-- SQLite's `unlock_at < d` for the column value and the result `d` of
`datetime`: `NULL` makes the comparison `NULL`, a number is less than every text,
two texts compare byte by byte. -/
def columnLt (column : StoredDate) (d : Option String) : Bool :=
  match column, d with
  | _, none => false
  | .numeric, some _ => true
  | .text s, some d => bytesLt s.data d.data

/-- SQLite's `d >= unlock_at` for the result `d` of `datetime` and the column
value. -/
def columnLe (column : StoredDate) (d : Option String) : Bool :=
  match column, d with
  | _, none => false
  | .numeric, some _ => true
  | .text s, some d => !bytesLt d.data s.data

/-! ## Numbers in JavaScript and in SQLite -/

/-- The number of binary digits of `n`, counted with `fuel` steps. -/
def bitLengthAux : Nat → Nat → Nat
  | 0, _ => 0
  | fuel + 1, n => if n = 0 then 0 else bitLengthAux fuel (n / 2) + 1

/-- The number of binary digits of `n`. -/
def bitLength (n : Nat) : Nat := bitLengthAux n n

/-- The double nearest to the integer `n`, ties to even: the integer a
JavaScript number holds after an operation whose exact result is `n`. An integer
below `2 ^ 53` in absolute value is held exactly. -/
def toDouble (n : Int) : Int :=
  if n.natAbs < 9007199254740992 then n
  else
    let e := bitLength n.natAbs - 53
    let q := n.natAbs / 2 ^ e
    let r := n.natAbs % 2 ^ e
    let q1 := if 2 ^ e < 2 * r ∨ (2 * r = 2 ^ e ∧ q % 2 = 1) then q + 1 else q
    n.sign * (q1 * 2 ^ e : Nat)

/-- SQLite takes the number as a `LIMIT` or an `OFFSET`: it is an integer
strictly between `-2 ^ 63` and `2 ^ 63`; any other bound number is the error
`datatype mismatch`. -/
def isInt64 (n : Int) : Bool :=
  decide (-9223372036854775808 < n ∧ n < 9223372036854775808)

/-! ## Helpers of the embedding -/

/-- JavaScript's `!v` for a request string that may be missing. -/
def isFalsy : Option String → Bool
  | none => true
  | some v => v == ""

/-- JavaScript's `!v` for a request date value. -/
def DateArg.isFalsy : DateArg → Bool
  | .absent => true
  | _ => false

/-- The test `newUnlockAt && (isNaN(newUnlockAt.getTime()) || newUnlockAt <= now)`
of `updateCapsule`, where `newUnlockAt` is `null` for a falsy `unlock_at` and
`new Date(unlock_at)` otherwise. -/
def badNewUnlockAt (unlock_at : DateArg) (now : Int) : Bool :=
  match unlock_at with
  | .absent => false
  | .invalid => true
  | .valid v => decide (v.time ≤ now)

/-- The row of `SELECT * FROM capsules WHERE id = ? AND user_id = ?`. -/
def findCapsule (db : Db) (id userId : Nat) : Option Capsule :=
  db.capsules.find? (fun c => c.id == id && c.user_id == userId)

/-- The rows named by `WHERE id = ? AND user_id = ? AND unlock_code = ?`. -/
def matchesKey (id userId : Nat) (code : Option String) (c : Capsule) : Bool :=
  c.id == id && c.user_id == userId && (some c.unlock_code == code)

/-- The largest rowid in the table, zero for an empty table. -/
def maxId (rows : List Capsule) : Nat :=
  rows.foldl (fun m c => max m c.id) 0

/-! ## The handlers -/

/-- The handler `createCapsule`. `unlockCode` is the value that
`generateUnlockCode(10)` returns in this call. The date is validated on
`new Date(unlock_at)`; the `INSERT` binds the request value itself, and the body
sends it back. -/
def createCapsule (db : Db) (userId : Nat) (message : Option String)
    (unlock_at : DateArg) (unlockCode : String) (now : Int) : Response × Db :=
  if isFalsy message = true ∨ unlock_at.isFalsy = true then
    (.error 400 "Message and unlock time are required", db)
  else
    match unlock_at with
    | .valid v =>
      let unlockDate := v.time
      if unlockDate ≤ now then
        (.error 400 "Unlock time must be a valid date in the future", db)
      else
        let capsuleId := max db.seq (maxId db.capsules) + 1
        let row : Capsule :=
          { id := capsuleId, user_id := userId, message := message.getD "",
            unlock_at := v.reread, unlock_at_column := v.column,
            unlock_code := unlockCode, is_expired := false,
            created_at := sqlSeconds now, updated_at := sqlSeconds now }
        (.created capsuleId unlockCode unlockDate,
          { capsules := db.capsules ++ [row], seq := capsuleId })
    | _ => (.error 400 "Unlock time must be a valid date in the future", db)

/-- The handler `getCapsule`. -/
def getCapsule (db : Db) (userId id : Nat) (code : Option String) (now : Int) :
    Response × Db :=
  if isFalsy code then (.error 401 "Unlock code is required", db)
  else
    match findCapsule db id userId with
    | none => (.error 404 "Capsule not found", db)
    | some capsule =>
      let unlockDate := capsule.unlock_at
      let thirtyDaysAfterUnlock := unlockDate + thirtyDaysMs
      if capsule.is_expired = true ∨ now > thirtyDaysAfterUnlock then
        (.error 410 "Capsule has expired", db)
      else if some capsule.unlock_code ≠ code then
        (.error 401 "Invalid unlock code", db)
      else if now < unlockDate then
        (.notYetUnlocked "Capsule is not yet unlocked" capsule.unlock_at, db)
      else
        (.capsule capsule.id capsule.message capsule.unlock_at capsule.created_at
          capsule.updated_at, db)

/-- The row the `UPDATE` of `updateCapsule` writes in place of `c`: the columns
pushed to `updateFields`, in the order of the source. The new `unlock_at` that is
bound is the request value itself. -/
def applyUpdate (message : Option String) (unlock_at : DateArg) (now : Int)
    (c : Capsule) : Capsule :=
  let c1 : Capsule := if isFalsy message then c else { c with message := message.getD "" }
  let c2 : Capsule :=
    match unlock_at with
    | .valid v => { c1 with unlock_at := v.reread, unlock_at_column := v.column }
    | _ => c1
  { c2 with updated_at := sqlSeconds now }

/-- The handler `updateCapsule`. -/
def updateCapsule (db : Db) (userId id : Nat) (code : Option String)
    (message : Option String) (unlock_at : DateArg) (now : Int) : Response × Db :=
  if isFalsy code then (.error 401 "Unlock code is required", db)
  else if isFalsy message = true ∧ unlock_at.isFalsy = true then
    (.error 400 "At least one field to update is required", db)
  else
    match findCapsule db id userId with
    | none => (.error 404 "Capsule not found", db)
    | some capsule =>
      if some capsule.unlock_code ≠ code then (.error 401 "Invalid unlock code", db)
      else if now ≥ capsule.unlock_at then
        (.error 403 "Cannot update an unlocked capsule", db)
      else
        if badNewUnlockAt unlock_at now then
          (.error 400 "Unlock time must be a valid date in the future", db)
        else
          let changes := (db.capsules.filter (matchesKey id userId code)).length
          let db1 : Db :=
            { db with capsules := db.capsules.map (fun c =>
                if matchesKey id userId code c then applyUpdate message unlock_at now c
                else c) }
          if changes = 0 then (.error 404 "Capsule not found or not updated", db1)
          else (.updated id, db1)

/-- The handler `deleteCapsule`. -/
def deleteCapsule (db : Db) (userId id : Nat) (code : Option String) (now : Int) :
    Response × Db :=
  if isFalsy code then (.error 401 "Unlock code is required", db)
  else
    match findCapsule db id userId with
    | none => (.error 404 "Capsule not found", db)
    | some capsule =>
      if some capsule.unlock_code ≠ code then (.error 401 "Invalid unlock code", db)
      else if now ≥ capsule.unlock_at then
        (.error 403 "Cannot delete an unlocked capsule", db)
      else
        let changes := (db.capsules.filter (matchesKey id userId code)).length
        let db1 : Db :=
          { db with capsules := db.capsules.filter (fun c => !matchesKey id userId code c) }
        if changes = 0 then (.error 404 "Capsule not found or not deleted", db1)
        else (.deleted id, db1)

/-- The `SELECT` list of `listCapsules` on one row: the `CASE` keeps `message`
when `datetime('now') >= unlock_at AND is_expired = 0` and yields `NULL`
otherwise. The comparison is SQLite's, on the column value. -/
def listItem (now : Int) (c : Capsule) : ListItem :=
  { id := c.id, unlock_at := c.unlock_at, is_expired := c.is_expired,
    created_at := c.created_at, updated_at := c.updated_at,
    message :=
      if columnLe c.unlock_at_column (sqlDatetime (now / 1000)) = true ∧
          c.is_expired = false then some c.message
      else none }

/-- JavaScript's `parseInt(v) || d`: the default replaces `NaN` and zero. -/
def orDefault (v : Option Int) (d : Int) : Int :=
  match v with
  | none => d
  | some n => if n = 0 then d else n

/-- SQLite's `LIMIT l OFFSET o` on a result list: a negative limit is no limit,
a negative offset is zero. -/
def limitOffset {α : Type} (l o : Int) (rows : List α) : List α :=
  let rest := rows.drop o.toNat
  if l < 0 then rest else rest.take l.toNat

/-- The value of `Math.ceil(total / limit)` for a non-zero limit (exact for a
table of fewer than `2 ^ 53` rows). -/
def ceilDiv (total limit : Int) : Int := -((-total).fdiv limit)

/-- The handler `listCapsules`. `page` and `limit` are the results of the two
`parseInt` calls, `none` for `NaN` and otherwise the integer the double holds.
The offset is computed in doubles. The listing query fails with
`datatype mismatch` when the limit or the offset is no 64-bit integer, and the
handler passes the error on. `ORDER BY created_at DESC` keeps rows of equal
`created_at` in rowid order. -/
def listCapsules (db : Db) (userId : Nat) (page limit : Option Int) (now : Int) :
    Response × Db :=
  let page := orDefault page 1
  let limit := orDefault limit 10
  let offset := toDouble (toDouble (page - 1) * limit)
  let owned := db.capsules.filter (fun c => c.user_id == userId)
  let total := owned.length
  if isInt64 limit = true ∧ isInt64 offset = true then
    let sorted := owned.insertionSort (fun a b => a.created_at ≥ b.created_at)
    let capsules := (limitOffset limit offset sorted).map (listItem now)
    (.listing capsules total page limit (ceilDiv total limit), db)
  else (.failure, db)

/-- The sweeper `checkExpiredCapsules` of `src/utils/scheduler.js`: the bound
parameter is `Math.floor(thirtyDaysAgo.getTime() / 1000)`, and the `UPDATE` sets
`is_expired = 1` where `unlock_at < datetime(?, 'unixepoch') AND is_expired = 0`.
The comparison is SQLite's, on the column value. -/
def checkExpiredCapsules (db : Db) (now : Int) : Db :=
  let thirtyDaysAgo := now - thirtyDaysMs
  let param := thirtyDaysAgo / 1000
  { db with capsules := db.capsules.map (fun c =>
      if columnLt c.unlock_at_column (sqlDatetime param) = true ∧ c.is_expired = false then
        { c with is_expired := true }
      else c) }

/-! ## Notions used by the statements -/

/-- The store `db` with the capsule of key `id` absent. -/
def withoutId (db : Db) (id : Nat) : Db :=
  { db with capsules := db.capsules.filter (fun r => r.id != id) }

/-- The array `capsules` of the body of a listing, empty for any other body. -/
def Response.items : Response → List ListItem
  | .listing cs _ _ _ _ => cs
  | _ => []

/-- The object `pagination` of the body of a listing: `total`, `page`, `limit`
and `totalPages`. -/
def Response.pagination : Response → Option (Nat × Int × Int × Int)
  | .listing _ total page limit totalPages => some (total, page, limit, totalPages)
  | _ => none

/-- The rows of `WHERE user_id = ?`. -/
def ownedBy (db : Db) (userId : Nat) : List Capsule :=
  db.capsules.filter (fun c => c.user_id == userId)

/-- The rows in the order of `ORDER BY created_at DESC`. -/
def newestFirst (rows : List Capsule) : List Capsule :=
  rows.insertionSort (fun a b => a.created_at ≥ b.created_at)

/-- The order of a listing, spelled out: `a` comes before `b` when it was created
in a later second, or in the same second with a rowid that is not larger. -/
def listedBefore (a b : Capsule) : Prop :=
  a.created_at > b.created_at ∨ (a.created_at = b.created_at ∧ a.id ≤ b.id)

instance : DecidableRel listedBefore :=
  fun _ _ => inferInstanceAs (Decidable (_ ∨ _))

/-- The row `c` without its unlock code. -/
def eraseCode (c : Capsule) : Capsule := { c with unlock_code := "" }

/-- A request that writes to the store, or one run of the sweeper. -/
inductive Op where
  | create (userId : Nat) (message : Option String) (unlock_at : DateArg)
      (unlockCode : String)
  | update (userId id : Nat) (code message : Option String) (unlock_at : DateArg)
  | delete (userId id : Nat) (code : Option String)
  | sweep
  deriving DecidableEq, Repr

/-- The store after the operation `op` handled at the instant `now`. -/
def applyOp (db : Db) (now : Int) : Op → Db
  | .create userId message unlock_at unlockCode =>
    (createCapsule db userId message unlock_at unlockCode now).2
  | .update userId id code message unlock_at =>
    (updateCapsule db userId id code message unlock_at now).2
  | .delete userId id code => (deleteCapsule db userId id code now).2
  | .sweep => checkExpiredCapsules db now

/-- The store after a history: operations with the instants they are handled
at, in the order they are handled. -/
def runFrom (db : Db) : List (Int × Op) → Db
  | [] => db
  | (t, op) :: rest => runFrom (applyOp db t op) rest

/-- The instants of a history never go back, starting from `clock`. -/
def nonDecreasing (clock : Int) : List (Int × Op) → Bool
  | [] => true
  | (t, _) :: rest => decide (clock ≤ t) && nonDecreasing t rest

/-! ## Rule tables in the words of the specification -/

/-- The status the specification gives Read: the first failing check in the
order existence, retirement, secret, time window, where a capsule is retired
when its flag is set or `now ≥ unlock_at + 30 days`; 200 when all four pass. -/
def specReadStatus (db : Db) (userId id : Nat) (code : Option String) (now : Int) : Nat :=
  match findCapsule db id userId with
  | none => 404
  | some c =>
    if c.is_expired = true ∨ now ≥ c.unlock_at + thirtyDaysMs then 410
    else if some c.unlock_code ≠ code then 401
    else if now < c.unlock_at then 403
    else 200

/-- The status the specification gives Delete: the first applicable rejection in
the order NotFound, Unauthorized, AlreadyUnlocked; 200 when the capsule belongs to
the caller, the code equals the stored one and `now < unlock_at`. -/
def specDeleteStatus (db : Db) (userId id : Nat) (code : Option String) (now : Int) : Nat :=
  match findCapsule db id userId with
  | none => 404
  | some c =>
    if some c.unlock_code ≠ code then 401
    else if now ≥ c.unlock_at then 403
    else 200

/-- The status the specification gives Update: precedence NotFound, Unauthorized,
AlreadyUnlocked (`now ≥ unlock_at`), ValidationError (neither field supplied, or a
new `unlock_at` that is not a valid instant strictly after `now`); 200 when none
applies. -/
def specUpdateStatus (db : Db) (userId id : Nat) (code : Option String)
    (message : Option String) (unlock_at : DateArg) (now : Int) : Nat :=
  match findCapsule db id userId with
  | none => 404
  | some c =>
    if some c.unlock_code ≠ code then 401
    else if now ≥ c.unlock_at then 403
    else if (isFalsy message = true ∧ unlock_at.isFalsy = true) ∨
        badNewUnlockAt unlock_at now = true then 400
    else 200

/-- The order the specification gives a listing, newest created first: of two
capsules the one created later, which has the larger rowid, comes first. -/
def specNewestFirst (rows : List Capsule) : List Capsule :=
  rows.insertionSort (fun a b => a.id ≥ b.id)

/-! ## Concrete stores used by the examples -/

/-- A capsule of user 1 with code `k` that unlocks at `unlockAt`, sent as the
text of `toISOString()`. -/
def sampleCapsule (id : Nat) (unlockAt : Int) (flag : Bool) : Capsule :=
  { id := id, user_id := 1, message := "hello", unlock_at := unlockAt,
    unlock_at_column := .text (isoText unlockAt), unlock_code := "k",
    is_expired := flag, created_at := 0, updated_at := 0 }

/-- A store that holds one capsule. -/
def singleDb (c : Capsule) : Db := { capsules := [c], seq := c.id }

/-- The empty store. -/
def emptyDb : Db := { capsules := [], seq := 0 }

/-- A store of `n` capsules of user 1, one created per second, ids `1` to `n`. -/
def manyCapsules (n : Nat) : Db :=
  { capsules := (List.range n).map (fun i =>
      { sampleCapsule (i + 1) 0 false with created_at := (i : Int) * 1000,
                                           updated_at := (i : Int) * 1000 }),
    seq := n }

/-! ## Basic facts -/

theorem thirtyDaysMs_eq : thirtyDaysMs = 2592000000 := by decide

theorem findCapsule_some {db : Db} {id userId : Nat} {c : Capsule}
    (h : findCapsule db id userId = some c) :
    c ∈ db.capsules ∧ c.id = id ∧ c.user_id = userId := by
  unfold findCapsule at h
  have hp := List.find?_some h
  have hm := List.mem_of_find?_eq_some h
  simp only [Bool.and_eq_true, beq_iff_eq] at hp
  exact ⟨hm, hp.1, hp.2⟩

theorem matchesKey_iff (id userId : Nat) (code : Option String) (c : Capsule) :
    matchesKey id userId code c = true ↔
      c.id = id ∧ c.user_id = userId ∧ some c.unlock_code = code := by
  simp [matchesKey, and_assoc]

theorem matchesKey_of_find {db : Db} {id userId : Nat} {code : Option String}
    {c : Capsule} (h : findCapsule db id userId = some c)
    (hc : some c.unlock_code = code) : matchesKey id userId code c = true := by
  obtain ⟨-, h1, h2⟩ := findCapsule_some h
  exact (matchesKey_iff id userId code c).mpr ⟨h1, h2, hc⟩

/-- After a successful lookup with the right code the `WHERE` clause of the
write names at least one row: `result.changes` is not zero. -/
theorem changes_ne_zero {db : Db} {id userId : Nat} {code : Option String}
    {c : Capsule} (h : findCapsule db id userId = some c)
    (hc : some c.unlock_code = code) :
    (db.capsules.filter (matchesKey id userId code)).length ≠ 0 := by
  have hm : c ∈ db.capsules.filter (matchesKey id userId code) :=
    List.mem_filter.mpr ⟨(findCapsule_some h).1, matchesKey_of_find h hc⟩
  intro h0
  rw [List.length_eq_zero] at h0
  rw [h0] at hm
  exact List.not_mem_nil _ hm

/-- With `id` a key of the table, the lookup by `id` and owner finds the only row
of that `id`. -/
theorem eq_of_find_of_nodup {db : Db} {id userId : Nat} {c r : Capsule}
    (hk : (db.capsules.map Capsule.id).Nodup)
    (h : findCapsule db id userId = some c) (hr : r ∈ db.capsules) (hid : r.id = id) :
    r = c := by
  obtain ⟨hm, h1, -⟩ := findCapsule_some h
  exact List.inj_on_of_nodup_map hk hr hm (hid.trans h1.symm)

/-- The two shapes of an answer of `updateCapsule`: a rejection that returns the
store as it was, or the success after all six checks, with the `UPDATE` applied
to the rows of that id, owner and code. -/
theorem updateCapsule_cases (db : Db) (userId id : Nat) (code message : Option String)
    (unlock_at : DateArg) (now : Int) :
    (∃ s t, s ≠ 200 ∧
      updateCapsule db userId id code message unlock_at now = (.error s t, db)) ∨
    (∃ c, isFalsy code = false ∧ ¬ (isFalsy message = true ∧ unlock_at.isFalsy = true) ∧
      findCapsule db id userId = some c ∧ some c.unlock_code = code ∧
      now < c.unlock_at ∧ badNewUnlockAt unlock_at now = false ∧
      updateCapsule db userId id code message unlock_at now =
        (.updated id,
          { db with capsules := db.capsules.map (fun r =>
              if matchesKey id userId code r then applyUpdate message unlock_at now r
              else r) })) := by
  cases hcode : isFalsy code
  · by_cases hfields : isFalsy message = true ∧ unlock_at.isFalsy = true
    · left
      exact ⟨400, "At least one field to update is required", by decide,
        by simp [updateCapsule, hcode, hfields]⟩
    · cases hf : findCapsule db id userId with
      | none =>
        left
        exact ⟨404, "Capsule not found", by decide,
          by simp [updateCapsule, hcode, hfields, hf]⟩
      | some c =>
        by_cases hc : some c.unlock_code = code
        · by_cases hl : now < c.unlock_at
          · cases hb : badNewUnlockAt unlock_at now
            · right
              refine ⟨c, rfl, hfields, rfl, hc, hl, rfl, ?_⟩
              simp only [updateCapsule, hcode, hf]
              simp [hfields, hc, not_le.mpr hl, hb, changes_ne_zero hf hc]
            · left
              refine ⟨400, "Unlock time must be a valid date in the future", by decide, ?_⟩
              simp only [updateCapsule, hcode, hf]
              simp [hfields, hc, not_le.mpr hl, hb]
          · left
            refine ⟨403, "Cannot update an unlocked capsule", by decide, ?_⟩
            simp only [updateCapsule, hcode, hf]
            simp [hfields, hc, not_lt.mp hl]
        · left
          refine ⟨401, "Invalid unlock code", by decide, ?_⟩
          simp only [updateCapsule, hcode, hf]
          simp [hfields, hc]
  · left
    exact ⟨401, "Unlock code is required", by decide, by simp [updateCapsule, hcode]⟩

/-- With `id` a key of the table and its row owned by another principal, the
lookup of the caller finds nothing. -/
theorem findCapsule_other_owner {db : Db} {id userId : Nat} {other : Capsule}
    (hkey : (db.capsules.map Capsule.id).Nodup) (hmem : other ∈ db.capsules)
    (hid : other.id = id) (hother : other.user_id ≠ userId) :
    findCapsule db id userId = none := by
  unfold findCapsule
  rw [List.find?_eq_none]
  intro r hr
  simp only [Bool.and_eq_true, beq_iff_eq, not_and]
  intro hrid
  have : r = other := List.inj_on_of_nodup_map hkey hr hmem (hrid.trans hid.symm)
  rw [this]
  exact hother

/-- No lookup by `id` finds a row in the store without `id`. -/
theorem findCapsule_withoutId (db : Db) (id userId : Nat) :
    findCapsule (withoutId db id) id userId = none := by
  unfold findCapsule withoutId
  rw [List.find?_eq_none]
  intro r hr
  have := (List.mem_filter.mp hr).2
  simp only [bne_iff_ne, ne_eq] at this
  simp [this]

theorem getCapsule_of_find_none {db : Db} {id userId : Nat}
    (h : findCapsule db id userId = none) (code : Option String) (now : Int) :
    getCapsule db userId id code now =
      (if isFalsy code = true then .error 401 "Unlock code is required"
        else .error 404 "Capsule not found", db) := by
  cases hc : isFalsy code <;> simp [getCapsule, hc, h]

theorem deleteCapsule_of_find_none {db : Db} {id userId : Nat}
    (h : findCapsule db id userId = none) (code : Option String) (now : Int) :
    deleteCapsule db userId id code now =
      (if isFalsy code = true then .error 401 "Unlock code is required"
        else .error 404 "Capsule not found", db) := by
  cases hc : isFalsy code <;> simp [deleteCapsule, hc, h]

theorem updateCapsule_of_find_none {db : Db} {id userId : Nat}
    (h : findCapsule db id userId = none) (code message : Option String)
    (unlock_at : DateArg) (now : Int) :
    updateCapsule db userId id code message unlock_at now =
      (if isFalsy code = true then .error 401 "Unlock code is required"
        else if isFalsy message = true ∧ unlock_at.isFalsy = true then
          .error 400 "At least one field to update is required"
        else .error 404 "Capsule not found", db) := by
  cases hc : isFalsy code
  · by_cases hf : isFalsy message = true ∧ unlock_at.isFalsy = true
    · simp [updateCapsule, hc, hf]
    · simp [updateCapsule, hc, hf, h]
  · simp [updateCapsule, hc]

/-! ## Facts about the listing -/

theorem toDouble_of_lt {n : Int} (h : n.natAbs < 9007199254740992) : toDouble n = n := by
  simp [toDouble, h]

theorem newestFirst_perm (rows : List Capsule) : (newestFirst rows).Perm rows :=
  List.perm_insertionSort _ rows

theorem newestFirst_length (rows : List Capsule) : (newestFirst rows).length = rows.length :=
  List.length_insertionSort _ rows

theorem listCapsules_eq (db : Db) (userId : Nat) (page limit : Option Int) (now : Int) :
    listCapsules db userId page limit now =
      (if isInt64 (orDefault limit 10) = true ∧
          isInt64 (toDouble (toDouble (orDefault page 1 - 1) * orDefault limit 10)) = true then
        .listing
          ((limitOffset (orDefault limit 10)
            (toDouble (toDouble (orDefault page 1 - 1) * orDefault limit 10))
            (newestFirst (ownedBy db userId))).map (listItem now))
          (ownedBy db userId).length (orDefault page 1) (orDefault limit 10)
          (ceilDiv (ownedBy db userId).length (orDefault limit 10))
      else .failure, db) := by
  simp only [listCapsules, newestFirst, ownedBy]
  split_ifs <;> rfl

/-! ## Read -/

/-- C1, as the source has it. Read answers with the first failing check in the
order: code present, existence, retirement, secret, time window. A missing or
empty code is 401 before the lookup; then 404 when the caller owns no capsule of
that id; then 410 when the flag is set or `now` is more than thirty days after
`unlock_at`; then 401 when the code differs from the stored one; then 403 with
`unlock_at` when `now < unlock_at`; and the answer is 200 with the message exactly
when all five checks pass. -/
theorem getCapsule_check_order (db : Db) (userId id : Nat) (code : Option String)
    (now : Int) :
    (isFalsy code = true →
      (getCapsule db userId id code now).1 = .error 401 "Unlock code is required") ∧
    (isFalsy code = false → findCapsule db id userId = none →
      (getCapsule db userId id code now).1 = .error 404 "Capsule not found") ∧
    (∀ c, isFalsy code = false → findCapsule db id userId = some c →
      (c.is_expired = true ∨ now > c.unlock_at + thirtyDaysMs) →
      (getCapsule db userId id code now).1 = .error 410 "Capsule has expired") ∧
    (∀ c, isFalsy code = false → findCapsule db id userId = some c →
      c.is_expired = false → now ≤ c.unlock_at + thirtyDaysMs →
      some c.unlock_code ≠ code →
      (getCapsule db userId id code now).1 = .error 401 "Invalid unlock code") ∧
    (∀ c, isFalsy code = false → findCapsule db id userId = some c →
      c.is_expired = false → now ≤ c.unlock_at + thirtyDaysMs →
      some c.unlock_code = code → now < c.unlock_at →
      (getCapsule db userId id code now).1 =
        .notYetUnlocked "Capsule is not yet unlocked" c.unlock_at) ∧
    (∀ c, isFalsy code = false → findCapsule db id userId = some c →
      c.is_expired = false → now ≤ c.unlock_at + thirtyDaysMs →
      some c.unlock_code = code → c.unlock_at ≤ now →
      (getCapsule db userId id code now).1 =
        .capsule c.id c.message c.unlock_at c.created_at c.updated_at) ∧
    ((getCapsule db userId id code now).1.status = 200 ↔
      ∃ c, isFalsy code = false ∧ findCapsule db id userId = some c ∧
        c.is_expired = false ∧ now ≤ c.unlock_at + thirtyDaysMs ∧
        some c.unlock_code = code ∧ c.unlock_at ≤ now) := by
  refine ⟨?_, ?_, ?_, ?_, ?_, ?_, ?_⟩
  · intro h
    simp [getCapsule, h]
  · intro h hf
    simp [getCapsule, h, hf]
  · intro c h hf hr
    simp only [getCapsule, h, hf]
    simp [hr]
  · intro c h hf he hn hc
    simp only [getCapsule, h, hf]
    simp [he, not_lt.mpr hn, hc]
  · intro c h hf he hn hc hl
    simp only [getCapsule, h, hf]
    simp [he, not_lt.mpr hn, hc, hl]
  · intro c h hf he hn hc hl
    simp only [getCapsule, h, hf]
    simp [he, not_lt.mpr hn, hc, not_lt.mpr hl]
  · unfold getCapsule
    cases hcode : isFalsy code
    · cases hf : findCapsule db id userId with
      | none => simp [Response.status]
      | some c =>
        simp only [Bool.false_eq_true, if_false]
        split_ifs with h1 h2 h3
        · simp only [Response.status]
          constructor
          · intro h; omega
          · rintro ⟨c1, -, hc1, he, hn, -, -⟩
            cases hc1
            rcases h1 with h1 | h1
            · simp [he] at h1
            · omega
        · simp only [Response.status]
          constructor
          · intro h; omega
          · rintro ⟨c1, -, hc1, -, -, hk, -⟩
            cases hc1
            exact absurd hk h2
        · simp only [Response.status]
          constructor
          · intro h; omega
          · rintro ⟨c1, -, hc1, -, -, -, hl⟩
            cases hc1
            omega
        · refine ⟨fun _ => ⟨c, by simp, by simp, ?_, ?_, ?_, ?_⟩, fun _ => rfl⟩
          · simpa using fun h => h1 (Or.inl h)
          · exact not_lt.mp fun h => h1 (Or.inr h)
          · exact not_not.mp h2
          · exact not_lt.mp h3
    · simp [Response.status]

/-- C1, a request the source can receive: with the empty code, on a store without
the capsule, Read answers 401 where the rule table of the specification says
404; and a capsule read with its code at the instant `unlock_at + 30 days` is
answered 200 where the rule table says 410. -/
theorem getCapsule_check_order_counterexample :
    ((getCapsule emptyDb 1 7 (some "") 1000).1.status = 401 ∧
      specReadStatus emptyDb 1 7 (some "") 1000 = 404) ∧
    ((getCapsule (singleDb (sampleCapsule 7 5000 false)) 1 7 (some "k")
        (5000 + thirtyDaysMs)).1.status = 200 ∧
      specReadStatus (singleDb (sampleCapsule 7 5000 false)) 1 7 (some "k")
        (5000 + thirtyDaysMs) = 410) := by
  decide

/-- C1, an instance: a capsule read with its code after `unlock_at` and within
thirty days passes all checks and is answered with its message. -/
theorem getCapsule_check_order_witness :
    (getCapsule (singleDb (sampleCapsule 7 5000 false)) 1 7 (some "k") 6000).1 =
      .capsule 7 "hello" 5000 0 0 :=
  (getCapsule_check_order (singleDb (sampleCapsule 7 5000 false)) 1 7 (some "k")
    6000).2.2.2.2.2.1 (sampleCapsule 7 5000 false) (by decide) (by decide) (by decide)
    (by decide) (by decide) (by decide)

/-- C2, as the source has it. For a capsule of the caller whose flag is set, or
with `now` more than thirty days after `unlock_at`, Read with a non-empty code
answers 410, also with the right code and with the flag still unset; and with
any code at all the answer is not 200 and discloses no message. -/
theorem getCapsule_retired (db : Db) (userId id : Nat) (code : Option String)
    (now : Int) (c : Capsule) (hfind : findCapsule db id userId = some c)
    (hret : c.is_expired = true ∨ now > c.unlock_at + thirtyDaysMs) :
    (isFalsy code = false →
      (getCapsule db userId id code now).1 = .error 410 "Capsule has expired") ∧
    (getCapsule db userId id code now).1.status ≠ 200 ∧
    (getCapsule db userId id code now).1.disclosed = none := by
  cases hcode : isFalsy code
  · simp only [getCapsule, hcode, hfind]
    simp [hret, Response.status, Response.disclosed]
  · simp [getCapsule, hcode, Response.status, Response.disclosed]

/-- C2, an instance: forty days after `unlock_at`, with the flag unset and the
right code, Read answers 410. -/
theorem getCapsule_retired_witness :
    (getCapsule (singleDb (sampleCapsule 3 0 false)) 1 3 (some "k")
        (40 * 24 * 60 * 60 * 1000)).1 = .error 410 "Capsule has expired" :=
  (getCapsule_retired (singleDb (sampleCapsule 3 0 false)) 1 3 (some "k")
    (40 * 24 * 60 * 60 * 1000) (sampleCapsule 3 0 false) (by decide)
    (Or.inr (by decide))).1 (by decide)

/-- C2, a request the source can receive: at the instant `unlock_at + 30 days`
exactly, with the flag unset, Read with the right code answers 200 with the
message; and a flagged capsule read with the empty code is answered 401, not
410. -/
theorem getCapsule_retired_counterexample :
    ((0 : Int) + thirtyDaysMs ≥ (sampleCapsule 3 0 false).unlock_at + thirtyDaysMs ∧
      (getCapsule (singleDb (sampleCapsule 3 0 false)) 1 3 (some "k")
        (0 + thirtyDaysMs)).1 = .capsule 3 "hello" 0 0 0) ∧
    (getCapsule (singleDb (sampleCapsule 3 0 true)) 1 3 (some "")
        (0 + thirtyDaysMs)).1 = .error 401 "Unlock code is required" := by
  decide

/-- C3, as the source has it. For a capsule of the caller and `now < unlock_at`:
Read with the stored, non-empty code answers 403 with the capsule's `unlock_at` in
the body when the flag is unset; the code is checked before the time, so a
missing code and a wrong code are answered 401; and a set flag is answered 410
for every non-empty code. -/
theorem getCapsule_locked (db : Db) (userId id : Nat) (code : Option String)
    (now : Int) (c : Capsule) (hfind : findCapsule db id userId = some c)
    (hnow : now < c.unlock_at) :
    (isFalsy code = true →
      (getCapsule db userId id code now).1 = .error 401 "Unlock code is required") ∧
    (isFalsy code = false → c.is_expired = true →
      (getCapsule db userId id code now).1 = .error 410 "Capsule has expired") ∧
    (isFalsy code = false → c.is_expired = false → some c.unlock_code ≠ code →
      (getCapsule db userId id code now).1 = .error 401 "Invalid unlock code") ∧
    (isFalsy code = false → c.is_expired = false → some c.unlock_code = code →
      (getCapsule db userId id code now).1 =
        .notYetUnlocked "Capsule is not yet unlocked" c.unlock_at) := by
  have hwin : ¬ now > c.unlock_at + thirtyDaysMs := by
    rw [thirtyDaysMs_eq]; omega
  refine ⟨?_, ?_, ?_, ?_⟩
  · intro h
    simp [getCapsule, h]
  · intro h he
    simp only [getCapsule, h, hfind]
    simp [he]
  · intro h he hc
    simp only [getCapsule, h, hfind]
    simp [he, hwin, hc]
  · intro h he hc
    simp only [getCapsule, h, hfind]
    simp [he, hwin, hc, hnow]

/-- C3, an instance: one hour before `unlock_at`, Read with the right code answers
403 and the body holds `unlock_at`. -/
theorem getCapsule_locked_witness :
    (getCapsule (singleDb (sampleCapsule 4 3600000 false)) 1 4 (some "k") 0).1 =
      .notYetUnlocked "Capsule is not yet unlocked" 3600000 :=
  (getCapsule_locked (singleDb (sampleCapsule 4 3600000 false)) 1 4 (some "k") 0
    (sampleCapsule 4 3600000 false) (by decide) (by decide)).2.2.2 (by decide)
    (by decide) (by decide)

/-- C3, a request the source can receive: before `unlock_at`, Read with a wrong
code answers 401, not 403 (the case of the test at lines 126 to 134 of
`capsule.test.js`); and a flagged capsule is answered 410 before `unlock_at`. -/
theorem getCapsule_locked_counterexample :
    ((0 : Int) < (sampleCapsule 4 3600000 false).unlock_at ∧
      (getCapsule (singleDb (sampleCapsule 4 3600000 false)) 1 4 (some "wrongcode")
        0).1 = .error 401 "Invalid unlock code") ∧
    (getCapsule (singleDb (sampleCapsule 4 3600000 true)) 1 4 (some "k") 0).1 =
      .error 410 "Capsule has expired" := by
  decide

/-! ## Delete -/

/-- C4, as the source has it. Delete answers with the first failing check in the
order: code present (401), existence (404), secret (401), still locked (403), and
every rejection leaves the store as it was. It answers 200 exactly when the code
is non-empty, a capsule of that id belongs to the caller, the code equals the
stored one and `now < unlock_at`; then the store loses the rows of that id, owner
and code and keeps every other row, and with `id` a key of the table no later
lookup finds the capsule. -/
theorem deleteCapsule_outcome (db : Db) (userId id : Nat) (code : Option String)
    (now : Int) :
    (isFalsy code = true →
      deleteCapsule db userId id code now = (.error 401 "Unlock code is required", db)) ∧
    (isFalsy code = false → findCapsule db id userId = none →
      deleteCapsule db userId id code now = (.error 404 "Capsule not found", db)) ∧
    (∀ c, isFalsy code = false → findCapsule db id userId = some c →
      some c.unlock_code ≠ code →
      deleteCapsule db userId id code now = (.error 401 "Invalid unlock code", db)) ∧
    (∀ c, isFalsy code = false → findCapsule db id userId = some c →
      some c.unlock_code = code → now ≥ c.unlock_at →
      deleteCapsule db userId id code now =
        (.error 403 "Cannot delete an unlocked capsule", db)) ∧
    (∀ c, isFalsy code = false → findCapsule db id userId = some c →
      some c.unlock_code = code → now < c.unlock_at →
      (deleteCapsule db userId id code now).1 = .deleted id ∧
      (deleteCapsule db userId id code now).2.seq = db.seq ∧
      (deleteCapsule db userId id code now).2.capsules =
        db.capsules.filter (fun r => !matchesKey id userId code r) ∧
      c ∉ (deleteCapsule db userId id code now).2.capsules ∧
      (∀ r ∈ db.capsules, r.id ≠ id →
        r ∈ (deleteCapsule db userId id code now).2.capsules) ∧
      ((db.capsules.map Capsule.id).Nodup →
        findCapsule (deleteCapsule db userId id code now).2 id userId = none)) ∧
    ((deleteCapsule db userId id code now).1.status = 200 ↔
      ∃ c, isFalsy code = false ∧ findCapsule db id userId = some c ∧
        some c.unlock_code = code ∧ now < c.unlock_at) ∧
    ((deleteCapsule db userId id code now).1.status ≠ 200 →
      (deleteCapsule db userId id code now).2 = db) := by
  have hsucc : ∀ c, isFalsy code = false → findCapsule db id userId = some c →
      some c.unlock_code = code → now < c.unlock_at →
      deleteCapsule db userId id code now =
        (.deleted id,
          { db with capsules := db.capsules.filter (fun r => !matchesKey id userId code r) }) := by
    intro c h hf hc hl
    simp only [deleteCapsule, h, hf]
    simp [hc, not_le.mpr hl, changes_ne_zero hf hc]
  refine ⟨?_, ?_, ?_, ?_, ?_, ?_, ?_⟩
  · intro h
    simp [deleteCapsule, h]
  · intro h hf
    simp [deleteCapsule, h, hf]
  · intro c h hf hc
    simp only [deleteCapsule, h, hf]
    simp [hc]
  · intro c h hf hc hl
    simp only [deleteCapsule, h, hf]
    simp [hc, hl]
  · intro c h hf hc hl
    rw [hsucc c h hf hc hl]
    refine ⟨rfl, rfl, rfl, ?_, ?_, ?_⟩
    · simp [List.mem_filter, matchesKey_of_find hf hc]
    · intro r hr hid
      refine List.mem_filter.mpr ⟨hr, ?_⟩
      have : matchesKey id userId code r = false := by
        rw [Bool.eq_false_iff]
        intro hm
        exact hid ((matchesKey_iff id userId code r).mp hm).1
      simp [this]
    · intro hk
      unfold findCapsule
      rw [List.find?_eq_none]
      intro r hr
      obtain ⟨hr1, hr2⟩ := List.mem_filter.mp hr
      simp only [Bool.and_eq_true, beq_iff_eq, not_and]
      intro hid _
      have hrc : r = c := eq_of_find_of_nodup hk hf hr1 hid
      subst hrc
      simp [matchesKey_of_find hf hc] at hr2
  · cases hcode : isFalsy code
    · cases hf : findCapsule db id userId with
      | none => simp [deleteCapsule, hcode, hf, Response.status]
      | some c =>
        by_cases hc : some c.unlock_code = code
        · by_cases hl : now < c.unlock_at
          · rw [hsucc c hcode hf hc hl]
            exact ⟨fun _ => ⟨c, rfl, rfl, hc, hl⟩, fun _ => rfl⟩
          · simp only [deleteCapsule, hcode, hf]
            simp [hc, not_lt.mp hl, Response.status, hl]
        · simp only [deleteCapsule, hcode, hf]
          simp [hc, Response.status]
    · simp [deleteCapsule, hcode, Response.status]
  · cases hcode : isFalsy code
    · cases hf : findCapsule db id userId with
      | none => simp [deleteCapsule, hcode, hf]
      | some c =>
        by_cases hc : some c.unlock_code = code
        · by_cases hl : now < c.unlock_at
          · rw [hsucc c hcode hf hc hl]
            simp [Response.status]
          · simp only [deleteCapsule, hcode, hf]
            simp [hc, not_lt.mp hl]
        · simp only [deleteCapsule, hcode, hf]
          simp [hc]
    · simp [deleteCapsule, hcode]

/-- C4, an instance: a locked capsule deleted with its code is answered 200 and
the store is empty afterwards. -/
theorem deleteCapsule_outcome_witness :
    (deleteCapsule (singleDb (sampleCapsule 5 9000 false)) 1 5 (some "k") 100).1 =
      .deleted 5 :=
  ((deleteCapsule_outcome (singleDb (sampleCapsule 5 9000 false)) 1 5 (some "k")
    100).2.2.2.2.1 (sampleCapsule 5 9000 false) (by decide) (by decide) (by decide)
    (by decide)).1

/-- C4, a request the source can receive: with the empty code, on a store without
the capsule, Delete answers 401 where the order NotFound, Unauthorized,
AlreadyUnlocked of the specification gives 404. -/
theorem deleteCapsule_outcome_counterexample :
    (deleteCapsule emptyDb 1 5 (some "") 100).1.status = 401 ∧
    specDeleteStatus emptyDb 1 5 (some "") 100 = 404 := by
  decide

/-! ## Update -/

/-- C5, as the source has it. Update answers with the first failing check in the
order: code present (401), a field supplied (400), existence (404), secret (401),
still locked (403, when `now ≥ unlock_at`), new `unlock_at` a valid instant
strictly after `now` (400); and it answers 200 exactly when none of the six
fails. -/
theorem updateCapsule_check_order (db : Db) (userId id : Nat) (code message : Option String)
    (unlock_at : DateArg) (now : Int) :
    (isFalsy code = true →
      (updateCapsule db userId id code message unlock_at now).1 =
        .error 401 "Unlock code is required") ∧
    (isFalsy code = false → isFalsy message = true → unlock_at.isFalsy = true →
      (updateCapsule db userId id code message unlock_at now).1 =
        .error 400 "At least one field to update is required") ∧
    (isFalsy code = false → ¬ (isFalsy message = true ∧ unlock_at.isFalsy = true) →
      findCapsule db id userId = none →
      (updateCapsule db userId id code message unlock_at now).1 =
        .error 404 "Capsule not found") ∧
    (∀ c, isFalsy code = false → ¬ (isFalsy message = true ∧ unlock_at.isFalsy = true) →
      findCapsule db id userId = some c → some c.unlock_code ≠ code →
      (updateCapsule db userId id code message unlock_at now).1 =
        .error 401 "Invalid unlock code") ∧
    (∀ c, isFalsy code = false → ¬ (isFalsy message = true ∧ unlock_at.isFalsy = true) →
      findCapsule db id userId = some c → some c.unlock_code = code →
      now ≥ c.unlock_at →
      (updateCapsule db userId id code message unlock_at now).1 =
        .error 403 "Cannot update an unlocked capsule") ∧
    (∀ c, isFalsy code = false → ¬ (isFalsy message = true ∧ unlock_at.isFalsy = true) →
      findCapsule db id userId = some c → some c.unlock_code = code →
      now < c.unlock_at → badNewUnlockAt unlock_at now = true →
      (updateCapsule db userId id code message unlock_at now).1 =
        .error 400 "Unlock time must be a valid date in the future") ∧
    ((updateCapsule db userId id code message unlock_at now).1.status = 200 ↔
      ∃ c, isFalsy code = false ∧ ¬ (isFalsy message = true ∧ unlock_at.isFalsy = true) ∧
        findCapsule db id userId = some c ∧ some c.unlock_code = code ∧
        now < c.unlock_at ∧ badNewUnlockAt unlock_at now = false) := by
  refine ⟨?_, ?_, ?_, ?_, ?_, ?_, ?_⟩
  · intro h
    simp [updateCapsule, h]
  · intro h h1 h2
    simp [updateCapsule, h, h1, h2]
  · intro h hfields hf
    simp [updateCapsule, h, hfields, hf]
  · intro c h hfields hf hc
    simp only [updateCapsule, h, hf]
    simp [hfields, hc]
  · intro c h hfields hf hc hl
    simp only [updateCapsule, h, hf]
    simp [hfields, hc, hl]
  · intro c h hfields hf hc hl hb
    simp only [updateCapsule, h, hf]
    simp [hfields, hc, not_le.mpr hl, hb]
  · rcases updateCapsule_cases db userId id code message unlock_at now with
      ⟨s, t, hs, he⟩ | ⟨c, h1, h2, h3, h4, h5, h6, he⟩
    · rw [he]
      simp only [Response.status]
      constructor
      · intro h; exact absurd h hs
      · rintro ⟨c, h1, h2, h3, h4, h5, h6⟩
        exfalso
        simp only [updateCapsule, h1, h3] at he
        simp [h2, h4, not_le.mpr h5, h6, changes_ne_zero h3 h4] at he
    · rw [he]
      exact ⟨fun _ => ⟨c, h1, h2, h3, h4, h5, h6⟩, fun _ => rfl⟩

/-- C5, an instance: a locked capsule updated with its code and a new message is
answered 200. -/
theorem updateCapsule_check_order_witness :
    (updateCapsule (singleDb (sampleCapsule 6 9000 false)) 1 6 (some "k")
      (some "new") .absent 200).1.status = 200 :=
  (updateCapsule_check_order (singleDb (sampleCapsule 6 9000 false)) 1 6 (some "k")
    (some "new") .absent 200).2.2.2.2.2.2.mpr
    ⟨sampleCapsule 6 9000 false, by decide, by decide, by decide, by decide, by decide,
      by decide⟩

/-- C5, a request the source can receive: with a code and an empty payload, on a
store without the capsule, Update answers 400 where the precedence of the
specification gives 404; and with the empty code it answers 401 there. -/
theorem updateCapsule_check_order_counterexample :
    ((updateCapsule emptyDb 1 6 (some "k") none .absent 200).1 =
        .error 400 "At least one field to update is required" ∧
      specUpdateStatus emptyDb 1 6 (some "k") none .absent 200 = 404) ∧
    ((updateCapsule emptyDb 1 6 (some "") (some "new") .absent 200).1.status = 401 ∧
      specUpdateStatus emptyDb 1 6 (some "") (some "new") .absent 200 = 404) := by
  decide

/-! ## List -/

/-- C6, the listing of a retired capsule that is not flagged yet: `unlock_at`
lies thirty days and one minute back and the sweeper has not run since. Read with
the right code answers 410, the capsule is retired; the listing of the same store
at the same instant carries its message. -/
theorem listCapsules_discloses_unflagged :
    (getCapsule (singleDb (sampleCapsule 8 0 false)) 1 8 (some "k")
      (thirtyDaysMs + 60000)).1 = .error 410 "Capsule has expired" ∧
    (listCapsules (singleDb (sampleCapsule 8 0 false)) 1 none none
      (thirtyDaysMs + 60000)).1 =
      .listing [{ id := 8, unlock_at := 0, is_expired := false, created_at := 0,
                  updated_at := 0, message := some "hello" }] 1 1 10 1 := by
  decide

/-! ## Sweeper -/

/-- C7, the sweeper on a capsule it should flag. The capsule unlocks at
2025-01-01T00:00:00.000Z, stored as that text, with the flag unset; the sweeper
runs on 2025-01-31 at 12:00:00 UTC, thirty days and twelve hours later, so the
capsule is more than thirty days past its unlock time and Read answers 410. The
bound of the `UPDATE` is the text `2025-01-01 12:00:00`; the stored text is not
less than it, since the two agree up to the date and `T` comes after the blank.
The run leaves the store as it was. -/
theorem checkExpiredCapsules_misses_elapsed :
    (sampleCapsule 9 1735689600000 false).unlock_at_column =
      .text "2025-01-01T00:00:00.000Z" ∧
    sqlDatetime ((1738324800000 - thirtyDaysMs) / 1000) = some "2025-01-01 12:00:00" ∧
    (sampleCapsule 9 1735689600000 false).unlock_at < 1738324800000 - thirtyDaysMs ∧
    (getCapsule (singleDb (sampleCapsule 9 1735689600000 false)) 1 9 (some "k")
      1738324800000).1 = .error 410 "Capsule has expired" ∧
    checkExpiredCapsules (singleDb (sampleCapsule 9 1735689600000 false)) 1738324800000 =
      singleDb (sampleCapsule 9 1735689600000 false) := by
  decide

/-! ## Create -/

/-- C8, Create with the year `"2030"` as `unlock_at`, on 2026-11-05. `new Date`
reads the string as 2030-01-01 (the instant 1893456000000), which is in the
future, so the request is answered 201. The column stores the numeric literal as
the number 2030, which the handlers read back as the instant 2030 ms: the capsule
stored does not have the `unlock_at` of the request, it lies in 1970, and Read
with the code just issued answers 410. -/
theorem createCapsule_numeric_text :
    createCapsule emptyDb 1 (some "hello")
        (.valid (.numericText "2030" 1893456000000 2030)) "Ab3dEf9hJk" 1793836800000 =
      (.created 1 "Ab3dEf9hJk" 1893456000000,
        { capsules := [{ id := 1, user_id := 1, message := "hello", unlock_at := 2030,
                         unlock_at_column := .numeric, unlock_code := "Ab3dEf9hJk",
                         is_expired := false, created_at := 1793836800000,
                         updated_at := 1793836800000 }],
          seq := 1 }) ∧
    (getCapsule
      (createCapsule emptyDb 1 (some "hello")
        (.valid (.numericText "2030" 1893456000000 2030)) "Ab3dEf9hJk" 1793836800000).2
      1 1 (some "Ab3dEf9hJk") 1793836800000).1 = .error 410 "Capsule has expired" := by
  decide

/-! ## Update: what is written -/

/-- C9, as the source has it. A rejected Update returns the store as it was. A
successful Update keeps the counter and rewrites the table row by row: a row of
another id, and any row that is not of that id, owner and code, is unchanged; a
row of that id, owner and code takes the supplied message when one is supplied
and keeps its own when not; keeps its `unlock_at` when none is supplied, and
takes the supplied one when it is a number or a string that the column keeps as
it is; has `updated_at` set to the current timestamp of the store (whole
seconds), which is later than the old value whenever the old value is earlier
than that timestamp; and keeps `id`, `user_id`, `unlock_code`, `is_expired` and
`created_at`. -/
theorem updateCapsule_frame (db : Db) (userId id : Nat) (code message : Option String)
    (unlock_at : DateArg) (now : Int) :
    ((updateCapsule db userId id code message unlock_at now).1.status ≠ 200 →
      (updateCapsule db userId id code message unlock_at now).2 = db) ∧
    ((updateCapsule db userId id code message unlock_at now).1.status = 200 →
      (updateCapsule db userId id code message unlock_at now).2.seq = db.seq ∧
      List.Forall₂ (fun r r' =>
          (r.id ≠ id → r' = r) ∧
          (matchesKey id userId code r = false → r' = r) ∧
          (matchesKey id userId code r = true →
            r'.message = (if isFalsy message then r.message else message.getD "") ∧
            (unlock_at.isFalsy = true →
              r'.unlock_at = r.unlock_at ∧ r'.unlock_at_column = r.unlock_at_column) ∧
            (∀ n, unlock_at = .valid (.number n) →
              now < n ∧ r'.unlock_at = n ∧ r'.unlock_at_column = .numeric) ∧
            (∀ s t, unlock_at = .valid (.text s t) →
              now < t ∧ r'.unlock_at = t ∧ r'.unlock_at_column = .text s) ∧
            r'.updated_at = sqlSeconds now ∧
            (r.updated_at < sqlSeconds now → r.updated_at < r'.updated_at) ∧
            r'.id = r.id ∧ r'.user_id = r.user_id ∧ r'.unlock_code = r.unlock_code ∧
            r'.is_expired = r.is_expired ∧ r'.created_at = r.created_at))
        db.capsules (updateCapsule db userId id code message unlock_at now).2.capsules) := by
  rcases updateCapsule_cases db userId id code message unlock_at now with
    ⟨s, t, hs, he⟩ | ⟨c, -, -, -, -, -, hbad, he⟩
  · rw [he]
    exact ⟨fun _ => rfl, fun h => absurd h hs⟩
  · rw [he]
    refine ⟨fun h => absurd rfl h, fun _ => ⟨rfl, ?_⟩⟩
    simp only [List.forall₂_map_right_iff]
    apply List.forall₂_same.mpr
    intro r _
    cases hk : matchesKey id userId code r
    · simp
    · have hid : r.id = id := ((matchesKey_iff id userId code r).mp hk).1
      refine ⟨fun h => absurd hid h, fun h => by simp at h, fun _ => ?_⟩
      simp only [if_true, applyUpdate]
      cases unlock_at with
      | absent => cases hm : isFalsy message <;> simp [DateArg.isFalsy]
      | invalid => simp [badNewUnlockAt] at hbad
      | valid v =>
        have hv : now < v.time := by simpa [badNewUnlockAt] using hbad
        cases v with
        | number n =>
          cases hm : isFalsy message <;>
            simpa [DateArg.isFalsy, DateValue.reread, DateValue.column, DateValue.time] using hv
        | text s t =>
          cases hm : isFalsy message <;>
            simpa [DateArg.isFalsy, DateValue.reread, DateValue.column, DateValue.time] using hv
        | numericText s t m =>
          cases hm : isFalsy message <;>
            simp [DateArg.isFalsy, DateValue.reread, DateValue.column]

/-- C9, an instance: a locked capsule updated with its code and a new message
only; the counter is kept, the row has the new message, its old `unlock_at`, and
the timestamp of the update. -/
theorem updateCapsule_frame_witness :
    (updateCapsule (singleDb (sampleCapsule 6 9000 false)) 1 6 (some "k")
      (some "new") .absent 2500).2.seq = (singleDb (sampleCapsule 6 9000 false)).seq ∧
    (updateCapsule (singleDb (sampleCapsule 6 9000 false)) 1 6 (some "k")
      (some "new") .absent 2500).2.capsules =
      [{ sampleCapsule 6 9000 false with message := "new", updated_at := 2000 }] :=
  ⟨((updateCapsule_frame (singleDb (sampleCapsule 6 9000 false)) 1 6 (some "k")
    (some "new") .absent 2500).2 (by decide)).1, by decide⟩

/-- C9, a request the source can receive: a capsule created in the second 0 and
updated 200 ms later with its code. The Update succeeds and `updated_at` is what
it was: it did not advance. -/
theorem updateCapsule_frame_counterexample :
    (updateCapsule (singleDb (sampleCapsule 6 9000 false)) 1 6 (some "k")
      (some "new") .absent 200).1 = .updated 6 ∧
    (updateCapsule (singleDb (sampleCapsule 6 9000 false)) 1 6 (some "k")
      (some "new") .absent 200).2.capsules.map Capsule.updated_at =
      (singleDb (sampleCapsule 6 9000 false)).capsules.map Capsule.updated_at := by
  decide

/-! ## Ownership -/

/-- C10. Take a store in which the capsule of key `id` belongs to another
principal than the caller, and the same store with that capsule absent. For
every code, payload and instant, Read, Update and Delete answer the caller the
same on both stores, and each leaves the first store, so also the capsule of the
other owner, as it was. That common answer is 404 as soon as the request carries
a non-empty code and, for Update, a field. -/
theorem cross_owner_not_found (db : Db) (userId id : Nat) (code message : Option String)
    (unlock_at : DateArg) (now : Int) (other : Capsule)
    (hkey : (db.capsules.map Capsule.id).Nodup) (hmem : other ∈ db.capsules)
    (hid : other.id = id) (hother : other.user_id ≠ userId) :
    ((getCapsule db userId id code now).1 =
        (getCapsule (withoutId db id) userId id code now).1 ∧
      (updateCapsule db userId id code message unlock_at now).1 =
        (updateCapsule (withoutId db id) userId id code message unlock_at now).1 ∧
      (deleteCapsule db userId id code now).1 =
        (deleteCapsule (withoutId db id) userId id code now).1) ∧
    ((getCapsule db userId id code now).2 = db ∧
      (updateCapsule db userId id code message unlock_at now).2 = db ∧
      (deleteCapsule db userId id code now).2 = db) ∧
    (isFalsy code = false →
      (getCapsule db userId id code now).1 = .error 404 "Capsule not found" ∧
      (deleteCapsule db userId id code now).1 = .error 404 "Capsule not found" ∧
      (¬ (isFalsy message = true ∧ unlock_at.isFalsy = true) →
        (updateCapsule db userId id code message unlock_at now).1 =
          .error 404 "Capsule not found")) ∧
    other ∉ (withoutId db id).capsules := by
  have h1 := findCapsule_other_owner hkey hmem hid hother
  have h2 := findCapsule_withoutId db id userId
  rw [getCapsule_of_find_none h1, getCapsule_of_find_none h2,
    updateCapsule_of_find_none h1, updateCapsule_of_find_none h2,
    deleteCapsule_of_find_none h1, deleteCapsule_of_find_none h2]
  refine ⟨⟨rfl, rfl, rfl⟩, ⟨rfl, rfl, rfl⟩, ?_, ?_⟩
  · intro hc
    refine ⟨by simp [hc], by simp [hc], fun hf => by simp [hc, hf]⟩
  · simp [withoutId, List.mem_filter, hid]

/-- C10, an instance: user 2 reads the capsule 11 of user 1 with the right code
and is answered 404, as on the store without it. -/
theorem cross_owner_not_found_witness :
    (getCapsule (singleDb (sampleCapsule 11 9000 false)) 2 11 (some "k") 100).1 =
      (getCapsule (withoutId (singleDb (sampleCapsule 11 9000 false)) 11) 2 11 (some "k")
        100).1 ∧
    (getCapsule (singleDb (sampleCapsule 11 9000 false)) 2 11 (some "k") 100).1 =
      .error 404 "Capsule not found" :=
  ⟨(cross_owner_not_found (singleDb (sampleCapsule 11 9000 false)) 2 11 (some "k") none
      .absent 100 (sampleCapsule 11 9000 false) (by decide) (by decide) (by decide)
      (by decide)).1.1,
    ((cross_owner_not_found (singleDb (sampleCapsule 11 9000 false)) 2 11 (some "k") none
      .absent 100 (sampleCapsule 11 9000 false) (by decide) (by decide) (by decide)
      (by decide)).2.2.1 (by decide)).1⟩

/-! ## List: pagination -/

theorem orDefault_pos {v : Option Int} {d : Int} (hd : 1 ≤ d)
    (hv : ∀ n, v = some n → 1 ≤ n) : 1 ≤ orDefault v d := by
  cases v with
  | none => simpa [orDefault] using hd
  | some n =>
    have := hv n rfl
    have h0 : n ≠ 0 := by omega
    simp only [orDefault, h0, if_false]
    exact this

/-- For a positive limit `ceilDiv` is the ceiling of the quotient. -/
theorem ceilDiv_eq_ceil (total : Nat) {limit : Int} (hl : 1 ≤ limit) :
    ceilDiv total limit = ⌈((total : Int) : ℚ) / (limit : ℚ)⌉ := by
  obtain ⟨d, rfl⟩ := Int.eq_ofNat_of_zero_le (by omega : 0 ≤ limit)
  have h1 : ⌈((total : Int) : ℚ) / ((d : Int) : ℚ)⌉ =
      -⌊((-(total : Int) : Int) : ℚ) / (d : ℚ)⌋ := by
    rw [← Int.ceil_neg]
    congr 1
    push_cast
    ring
  rw [h1, Rat.floor_intCast_div_natCast]
  simp only [ceilDiv]
  rw [Int.fdiv_eq_ediv _ (by omega)]

theorem listedBefore_total : IsTotal Capsule listedBefore :=
  ⟨fun a b => by
    unfold listedBefore
    rcases lt_trichotomy a.created_at b.created_at with h | h | h
    · exact Or.inr (Or.inl h)
    · rcases le_total a.id b.id with hi | hi
      · exact Or.inl (Or.inr ⟨h, hi⟩)
      · exact Or.inr (Or.inr ⟨h.symm, hi⟩)
    · exact Or.inl (Or.inl h)⟩

theorem listedBefore_trans : IsTrans Capsule listedBefore :=
  ⟨fun a b c hab hbc => by
    unfold listedBefore at *
    rcases hab with h1 | ⟨h1, h2⟩ <;> rcases hbc with h3 | ⟨h3, h4⟩
    · exact Or.inl (by omega)
    · exact Or.inl (by omega)
    · exact Or.inl (by omega)
    · exact Or.inr ⟨by omega, by omega⟩⟩

theorem orderedInsert_congr {r s : Capsule → Capsule → Prop} [DecidableRel r]
    [DecidableRel s] (a : Capsule) (l : List Capsule) (h : ∀ b ∈ l, r a b ↔ s a b) :
    l.orderedInsert r a = l.orderedInsert s a := by
  induction l with
  | nil => rfl
  | cons b rest ih =>
    have hb := h b (List.mem_cons_self b rest)
    have hrest := ih (fun c hc => h c (List.mem_cons_of_mem b hc))
    by_cases hr : r a b
    · simp [List.orderedInsert, hr, hb.mp hr]
    · have hs : ¬ s a b := fun hs => hr (hb.mpr hs)
      simp [List.orderedInsert, hr, hs, hrest]

/-- On rows in rowid order the sort of `ORDER BY created_at DESC`, which keeps
equal rows in their order, is the sort by `created_at` descending and then by
rowid. -/
theorem newestFirst_eq_sort {rows : List Capsule}
    (h : rows.Pairwise (fun a b => a.id < b.id)) :
    newestFirst rows = rows.insertionSort listedBefore := by
  unfold newestFirst
  induction rows with
  | nil => rfl
  | cons a rest ih =>
    rw [List.pairwise_cons] at h
    simp only [List.insertionSort]
    rw [ih h.2]
    apply orderedInsert_congr
    intro b hb
    have hlt : a.id < b.id := h.1 b ((List.perm_insertionSort _ rest).mem_iff.mp hb)
    unfold listedBefore
    constructor
    · intro hge
      rcases lt_or_eq_of_le hge with hgt | heq
      · exact Or.inl hgt
      · exact Or.inr ⟨heq.symm, by omega⟩
    · rintro (hgt | ⟨heq, -⟩)
      · exact le_of_lt hgt
      · exact le_of_eq heq.symm

theorem newestFirst_sorted {rows : List Capsule}
    (h : rows.Pairwise (fun a b => a.id < b.id)) :
    (newestFirst rows).Sorted listedBefore := by
  rw [newestFirst_eq_sort h]
  haveI := listedBefore_total
  haveI := listedBefore_trans
  exact List.sorted_insertionSort _ rows

theorem ownedBy_rowid_order {db : Db} (userId : Nat)
    (h : (db.capsules.map Capsule.id).Sorted (· < ·)) :
    (ownedBy db userId).Pairwise (fun a b => a.id < b.id) := by
  have h1 : db.capsules.Pairwise (fun a b => a.id < b.id) := List.pairwise_map.mp h
  exact h1.sublist (List.filter_sublist _)

/-- C11, as the source has it. Let the table be in rowid order, let `page` and
`limit`, where supplied, be at least 1 (page 1 and limit 10 where not supplied),
and let `page * limit` be at most `2 ^ 53`. Then the body of List holds `total`,
the number of capsules the caller owns, that page and limit, and
`totalPages = ceil(total / limit)`. The capsules of the caller come in the order
of `created_at` descending, a timestamp of whole seconds, and capsules created in
the same second in the order of their creation: a rearrangement of the caller's
rows sorted that way. Page `p` holds, in that order, the items of the positions
`(p - 1) * limit + 1` through `min (p * limit) total`; with 25 capsules and limit
10 there are 3 pages and page 3 has 5 items; and the store is as it was. -/
theorem listCapsules_pagination (db : Db) (userId : Nat) (page limit : Option Int)
    (now : Int) (hpage : ∀ p, page = some p → 1 ≤ p)
    (hlimit : ∀ l, limit = some l → 1 ≤ l)
    (hsafe : orDefault page 1 * orDefault limit 10 ≤ 9007199254740992)
    (hrowid : (db.capsules.map Capsule.id).Sorted (· < ·)) :
    ((∀ p, page = some p → orDefault page 1 = p) ∧
      (page = none → orDefault page 1 = 1) ∧
      (∀ l, limit = some l → orDefault limit 10 = l) ∧
      (limit = none → orDefault limit 10 = 10)) ∧
    (listCapsules db userId page limit now).1.pagination =
      some ((ownedBy db userId).length, orDefault page 1, orDefault limit 10,
        ⌈(((ownedBy db userId).length : Int) : ℚ) / (orDefault limit 10 : ℚ)⌉) ∧
    ((newestFirst (ownedBy db userId)).Perm (ownedBy db userId) ∧
      (newestFirst (ownedBy db userId)).Sorted listedBefore) ∧
    (listCapsules db userId page limit now).1.items =
      (((newestFirst (ownedBy db userId)).drop
        ((orDefault page 1 - 1) * orDefault limit 10).toNat).take
        (orDefault limit 10).toNat).map (listItem now) ∧
    (∀ k : Nat, (k : Int) < orDefault limit 10 →
      (listCapsules db userId page limit now).1.items[k]? =
        ((newestFirst (ownedBy db userId))[
          ((orDefault page 1 - 1) * orDefault limit 10).toNat + k]?).map (listItem now)) ∧
    (((listCapsules db userId page limit now).1.items.length : Int) =
      max 0 (min (orDefault page 1 * orDefault limit 10) (ownedBy db userId).length -
        (orDefault page 1 - 1) * orDefault limit 10)) ∧
    ((ownedBy db userId).length = 25 → orDefault limit 10 = 10 →
      (listCapsules db userId page limit now).1.pagination =
        some (25, orDefault page 1, 10, 3) ∧
      (orDefault page 1 = 3 →
        (listCapsules db userId page limit now).1.items.length = 5)) ∧
    (listCapsules db userId page limit now).2 = db := by
  have hP : 1 ≤ orDefault page 1 := orDefault_pos (by decide) hpage
  have hL : 1 ≤ orDefault limit 10 := orDefault_pos (by decide) hlimit
  have hoff : 0 ≤ (orDefault page 1 - 1) * orDefault limit 10 :=
    mul_nonneg (by omega) (by omega)
  have hmul : orDefault page 1 * orDefault limit 10 =
      (orDefault page 1 - 1) * orDefault limit 10 + orDefault limit 10 := by ring
  have hPle : orDefault page 1 ≤ orDefault page 1 * orDefault limit 10 :=
    le_mul_of_one_le_right (by omega) hL
  have hd1 : toDouble (orDefault page 1 - 1) = orDefault page 1 - 1 :=
    toDouble_of_lt (by omega)
  have hd2 : toDouble ((orDefault page 1 - 1) * orDefault limit 10) =
      (orDefault page 1 - 1) * orDefault limit 10 :=
    toDouble_of_lt (by omega)
  have hok : isInt64 (orDefault limit 10) = true ∧
      isInt64 (toDouble (toDouble (orDefault page 1 - 1) * orDefault limit 10)) = true := by
    rw [hd1, hd2]
    simp only [isInt64, decide_eq_true_eq]
    constructor <;> constructor <;> omega
  have hresp : (listCapsules db userId page limit now).1 =
      .listing
        ((limitOffset (orDefault limit 10) ((orDefault page 1 - 1) * orDefault limit 10)
          (newestFirst (ownedBy db userId))).map (listItem now))
        (ownedBy db userId).length (orDefault page 1) (orDefault limit 10)
        (ceilDiv (ownedBy db userId).length (orDefault limit 10)) := by
    rw [listCapsules_eq, if_pos hok, hd1, hd2]
  have hitems : (listCapsules db userId page limit now).1.items =
      (((newestFirst (ownedBy db userId)).drop
        ((orDefault page 1 - 1) * orDefault limit 10).toNat).take
        (orDefault limit 10).toNat).map (listItem now) := by
    rw [hresp]
    simp only [Response.items, limitOffset]
    rw [if_neg (by omega)]
  have hlen : ((listCapsules db userId page limit now).1.items.length : Int) =
      max 0 (min (orDefault page 1 * orDefault limit 10) (ownedBy db userId).length -
        (orDefault page 1 - 1) * orDefault limit 10) := by
    rw [hitems, hmul]
    simp only [List.length_map, List.length_take, List.length_drop, newestFirst_length]
    generalize (orDefault page 1 - 1) * orDefault limit 10 = off at hoff
    omega
  refine ⟨⟨?_, ?_, ?_, ?_⟩, ?_,
    ⟨newestFirst_perm _, newestFirst_sorted (ownedBy_rowid_order userId hrowid)⟩, hitems, ?_,
    hlen, ?_, ?_⟩
  · intro p hp
    have := hpage p hp
    have h0 : p ≠ 0 := by omega
    simp [hp, orDefault, h0]
  · intro h
    simp [h, orDefault]
  · intro l hl
    have := hlimit l hl
    have h0 : l ≠ 0 := by omega
    simp [hl, orDefault, h0]
  · intro h
    simp [h, orDefault]
  · rw [hresp, ceilDiv_eq_ceil _ hL]
    rfl
  · intro k hk
    rw [hitems]
    simp only [List.getElem?_map, List.getElem?_take, List.getElem?_drop]
    rw [if_pos (by omega)]
  · intro h25 h10
    refine ⟨?_, ?_⟩
    · rw [hresp, h25, h10]
      rfl
    · intro h3
      have := hlen
      rw [h25, h10, h3] at this
      simp at this
      omega
  · rw [listCapsules_eq]

/-- C11, the example of the specification: with 25 capsules and limit 10 there
are 3 pages and page 3 has 5 items. -/
theorem listCapsules_pagination_witness :
    (listCapsules (manyCapsules 25) 1 (some 3) (some 10) 5000).1.pagination =
      some (25, orDefault (some 3) 1, 10, 3) ∧
    (listCapsules (manyCapsules 25) 1 (some 3) (some 10) 5000).1.items.length = 5 :=
  ⟨((listCapsules_pagination (manyCapsules 25) 1 (some 3) (some 10) 5000
      (fun p hp => by cases hp; decide) (fun l hl => by cases hl; decide) (by decide)
      (by decide)).2.2.2.2.2.2.1 (by decide) (by decide)).1,
    ((listCapsules_pagination (manyCapsules 25) 1 (some 3) (some 10) 5000
      (fun p hp => by cases hp; decide) (fun l hl => by cases hl; decide) (by decide)
      (by decide)).2.2.2.2.2.2.1 (by decide) (by decide)).2 (by decide)⟩

set_option maxRecDepth 100000 in
/-- C11, requests the source can receive. User 1 creates two capsules within one
second, 200 ms and 700 ms after 2026-11-05T00:00:00Z, and lists them: both have
the `created_at` of that second, and the listing holds the older capsule first,
where newest created first puts the capsule 2 before the capsule 1. And the page
`1e30`, which `parseInt` returns as the double 1000000000000000019884624838656,
with limit 10 gets no listing: the offset is no 64-bit integer, the query fails
and the handler passes the error on. -/
theorem listCapsules_pagination_counterexample :
    ((listCapsules
        (createCapsule
          (createCapsule emptyDb 1 (some "first")
            (.valid (.text "2030-01-01T00:00:00.000Z" 1893456000000)) "Ab3dEf9hJk"
            1793836800200).2
          1 (some "second") (.valid (.text "2030-01-01T00:00:00.000Z" 1893456000000))
          "Zy8xWv7uTs" 1793836800700).2
        1 (some 1) (some 10) 1793836801500).1.items.map ListItem.id = [1, 2]) ∧
    ((specNewestFirst (ownedBy
        (createCapsule
          (createCapsule emptyDb 1 (some "first")
            (.valid (.text "2030-01-01T00:00:00.000Z" 1893456000000)) "Ab3dEf9hJk"
            1793836800200).2
          1 (some "second") (.valid (.text "2030-01-01T00:00:00.000Z" 1893456000000))
          "Zy8xWv7uTs" 1793836800700).2 1)).map Capsule.id = [2, 1]) ∧
    (listCapsules emptyDb 1 (some 1000000000000000019884624838656) (some 10)
      1793836801500).1 = .failure := by
  decide

/-! ## The unlock code is not disclosed -/

theorem listItem_eraseCode (now : Int) (c : Capsule) :
    listItem now (eraseCode c) = listItem now c := rfl

theorem ownedBy_eraseCode (db : Db) (userId : Nat) :
    (ownedBy db userId).map eraseCode =
      (db.capsules.map eraseCode).filter (fun c => c.user_id == userId) := by
  rw [ownedBy, List.filter_map]
  rfl

theorem newestFirst_eraseCode (rows : List Capsule) :
    (newestFirst rows).map eraseCode = newestFirst (rows.map eraseCode) := by
  unfold newestFirst
  exact List.map_insertionSort (fun a b : Capsule => a.created_at ≥ b.created_at)
    (fun a b : Capsule => a.created_at ≥ b.created_at) eraseCode rows
    (fun a _ b _ => Iff.rfl)

theorem limitOffset_map {α β : Type} (f : α → β) (l o : Int) (rows : List α) :
    (limitOffset l o rows).map f = limitOffset l o (rows.map f) := by
  unfold limitOffset
  by_cases h : l < 0
  · simp [h]
  · simp [h]

/-- The array `capsules` of a listing is a function of the rows without their
unlock codes. -/
theorem listing_items_eraseCode (db : Db) (userId : Nat) (l o : Int) (now : Int) :
    (limitOffset l o (newestFirst (ownedBy db userId))).map (listItem now) =
      (limitOffset l o (newestFirst
        ((db.capsules.map eraseCode).filter (fun c => c.user_id == userId)))).map
        (listItem now) := by
  rw [← ownedBy_eraseCode, ← newestFirst_eraseCode, ← limitOffset_map, List.map_map]
  rfl

theorem findCapsule_eraseCode (db : Db) (id userId : Nat) :
    (findCapsule db id userId).map eraseCode =
      (db.capsules.map eraseCode).find? (fun c => c.id == id && c.user_id == userId) := by
  rw [findCapsule, List.find?_map]
  rfl

/-- A read that is answered 200 found a row and sends its `id`, `message`,
`unlock_at`, `created_at` and `updated_at`. -/
theorem getCapsule_ok {db : Db} {userId id : Nat} {code : Option String} {now : Int}
    (h : (getCapsule db userId id code now).1.status = 200) :
    ∃ c, findCapsule db id userId = some c ∧
      (getCapsule db userId id code now).1 =
        .capsule c.id c.message c.unlock_at c.created_at c.updated_at := by
  unfold getCapsule at h ⊢
  cases hcode : isFalsy code
  · cases hf : findCapsule db id userId with
    | none => simp [hcode, hf, Response.status] at h
    | some c =>
      refine ⟨c, rfl, ?_⟩
      simp only [hcode, hf] at h ⊢
      simp only [Bool.false_eq_true, if_false] at h ⊢
      split_ifs at h ⊢ with h1 h2 h3
      · simp [Response.status] at h
      · simp [Response.status] at h
      · simp [Response.status] at h
      · rfl
  · simp [hcode, Response.status] at h

/-- C12. The body of a successful Read holds `id`, `message`, `unlock_at`,
`created_at` and `updated_at` of the capsule found, every item of a listing holds
`id`, `unlock_at`, `is_expired`, `created_at`, `updated_at` and `message` of a
capsule of the caller, and neither holds the unlock code: on two stores that
differ only in the stored unlock codes List answers the same for every caller,
page, limit and instant, and any two successful Reads of the same capsule, each
with whatever code its store accepts, have the same body. The creation response
does hold the code. -/
theorem unlock_code_not_disclosed (db1 db2 : Db)
    (hsame : db1.capsules.map eraseCode = db2.capsules.map eraseCode) :
    (∀ userId page limit now,
      (listCapsules db1 userId page limit now).1 =
        (listCapsules db2 userId page limit now).1) ∧
    (∀ userId id code1 code2 now1 now2,
      (getCapsule db1 userId id code1 now1).1.status = 200 →
      (getCapsule db2 userId id code2 now2).1.status = 200 →
      (getCapsule db1 userId id code1 now1).1 = (getCapsule db2 userId id code2 now2).1) ∧
    (∀ userId id code now, (getCapsule db1 userId id code now).1.status = 200 →
      ∃ c ∈ db1.capsules, (getCapsule db1 userId id code now).1 =
        .capsule c.id c.message c.unlock_at c.created_at c.updated_at) ∧
    (∀ userId page limit now, ∀ item ∈ (listCapsules db1 userId page limit now).1.items,
      ∃ c ∈ db1.capsules, c.user_id = userId ∧ item = listItem now c) ∧
    (∀ userId message unlock_at unlockCode now,
      (createCapsule db1 userId message unlock_at unlockCode now).1.status = 201 →
      ∃ newId t, (createCapsule db1 userId message unlock_at unlockCode now).1 =
        .created newId unlockCode t) := by
  refine ⟨?_, ?_, ?_, ?_, ?_⟩
  · intro userId page limit now
    have hlen : (ownedBy db1 userId).length = (ownedBy db2 userId).length := by
      rw [← List.length_map (ownedBy db1 userId) eraseCode,
        ← List.length_map (ownedBy db2 userId) eraseCode,
        ownedBy_eraseCode, ownedBy_eraseCode, hsame]
    rw [listCapsules_eq, listCapsules_eq, listing_items_eraseCode db1,
      listing_items_eraseCode db2, hsame, hlen]
  · intro userId id code1 code2 now1 now2 h1 h2
    obtain ⟨c1, hf1, hr1⟩ := getCapsule_ok h1
    obtain ⟨c2, hf2, hr2⟩ := getCapsule_ok h2
    have hfind : (findCapsule db1 id userId).map eraseCode =
        (findCapsule db2 id userId).map eraseCode := by
      rw [findCapsule_eraseCode, findCapsule_eraseCode, hsame]
    rw [hf1, hf2] at hfind
    simp only [Option.map_some', Option.some.injEq, eraseCode] at hfind
    rw [hr1, hr2]
    cases c1
    cases c2
    simp only [Capsule.mk.injEq] at hfind
    simp only [Response.capsule.injEq]
    tauto
  · intro userId id code now h
    obtain ⟨c, hf, hr⟩ := getCapsule_ok h
    exact ⟨c, (findCapsule_some hf).1, hr⟩
  · intro userId page limit now item hitem
    rw [listCapsules_eq] at hitem
    split_ifs at hitem
    swap
    · simp [Response.items] at hitem
    simp only [Response.items, List.mem_map] at hitem
    obtain ⟨c, hc, rfl⟩ := hitem
    have hc1 : c ∈ newestFirst (ownedBy db1 userId) := by
      unfold limitOffset at hc
      split_ifs at hc
      · exact List.mem_of_mem_drop hc
      · exact List.mem_of_mem_drop (List.mem_of_mem_take hc)
    have hc2 : c ∈ ownedBy db1 userId := (newestFirst_perm _).mem_iff.mp hc1
    obtain ⟨hc3, hc4⟩ := List.mem_filter.mp hc2
    exact ⟨c, hc3, by simpa using hc4, rfl⟩
  · intro userId message unlock_at unlockCode now h
    unfold createCapsule at h ⊢
    split_ifs at h ⊢ with h1
    · simp [Response.status] at h
    · cases unlock_at with
      | absent => simp [Response.status] at h
      | invalid => simp [Response.status] at h
      | valid v =>
        simp only at h ⊢
        split_ifs at h ⊢ with h2
        · simp [Response.status] at h
        · exact ⟨_, _, rfl⟩

/-- C12, an instance: two stores that hold the same capsule with the codes `k`
and `z`. The listings are equal, and the two Reads, each with the code of its
store, have the same body. -/
theorem unlock_code_not_disclosed_witness :
    (listCapsules (singleDb (sampleCapsule 12 0 false)) 1 none none 5000).1 =
      (listCapsules (singleDb { sampleCapsule 12 0 false with unlock_code := "z" }) 1 none
        none 5000).1 ∧
    (getCapsule (singleDb (sampleCapsule 12 0 false)) 1 12 (some "k") 5000).1 =
      (getCapsule (singleDb { sampleCapsule 12 0 false with unlock_code := "z" }) 1 12
        (some "z") 6000).1 :=
  ⟨(unlock_code_not_disclosed (singleDb (sampleCapsule 12 0 false))
      (singleDb { sampleCapsule 12 0 false with unlock_code := "z" }) (by decide)).1 1 none
      none 5000,
    (unlock_code_not_disclosed (singleDb (sampleCapsule 12 0 false))
      (singleDb { sampleCapsule 12 0 false with unlock_code := "z" }) (by decide)).2.1 1 12
      (some "k") (some "z") 5000 6000 (by decide) (by decide)⟩

/-! ## Flagged capsules -/

/-- C13, a history the source can run, with instants that never go back. On
2026-11-05 user 1 creates a capsule with `unlock_at` sent as the number
4102444800000, the instant 2100-01-01; one hour later the sweeper runs. The
column holds a number, and a number is less than the text of the bound, so the
run flags the capsule although its `unlock_at` lies in the future. One hour
later an Update with the code is answered 200 and changes the message, and a
Delete with the code is answered 200 and removes the row. -/
theorem flagged_while_locked :
    nonDecreasing 1793836800000
      [(1793836800000,
          .create 1 (some "hello") (.valid (.number 4102444800000)) "Ab3dEf9hJk"),
        (1793840400000, .sweep)] = true ∧
    (runFrom emptyDb
      [(1793836800000,
          .create 1 (some "hello") (.valid (.number 4102444800000)) "Ab3dEf9hJk"),
        (1793840400000, .sweep)]).capsules =
      [{ id := 1, user_id := 1, message := "hello", unlock_at := 4102444800000,
         unlock_at_column := .numeric, unlock_code := "Ab3dEf9hJk", is_expired := true,
         created_at := 1793836800000, updated_at := 1793836800000 }] ∧
    ¬ ((4102444800000 : Int) < 1793844000000 - thirtyDaysMs) ∧
    updateCapsule
        (runFrom emptyDb
          [(1793836800000,
              .create 1 (some "hello") (.valid (.number 4102444800000)) "Ab3dEf9hJk"),
            (1793840400000, .sweep)])
        1 1 (some "Ab3dEf9hJk") (some "changed") .absent 1793844000000 =
      (.updated 1,
        { capsules :=
            [{ id := 1, user_id := 1, message := "changed", unlock_at := 4102444800000,
               unlock_at_column := .numeric, unlock_code := "Ab3dEf9hJk",
               is_expired := true, created_at := 1793836800000,
               updated_at := 1793844000000 }],
          seq := 1 }) ∧
    deleteCapsule
        (runFrom emptyDb
          [(1793836800000,
              .create 1 (some "hello") (.valid (.number 4102444800000)) "Ab3dEf9hJk"),
            (1793840400000, .sweep)])
        1 1 (some "Ab3dEf9hJk") 1793844000000 =
      (.deleted 1, { capsules := [], seq := 1 }) := by
  decide

end TimeCapsule
